import Mathlib

set_option autoImplicit false

/-!
Shallow embedding of the data-preparation and geo-join pipeline of the
spain-wildfires repository (modules `src/wildfires/cleaning.py`,
`src/wildfires/geo.py`, `src/wildfires/aggregates.py` and the filter
helper of `app/spain_wildfires_dashboard.py`), together with proofs of
the specification claims about it.

Modelling conventions:
* a dataframe cell or GeoJSON property holds a `Value`: an integer, a
  string, a boolean, pandas' `NaN` missing marker (`Value.na`) or
  Python's `None` (`Value.null`).  Floating point numbers are modelled
  by integers (the pipeline only sums and compares them);
* a `Row` is an association list from column name to `Value`; a `Table`
  carries the column schema (pandas keeps the schema even for an empty
  frame) plus the list of rows;
* `pd.to_numeric(..., errors="coerce")` is modelled by `parseNum`
  (integer literals with an optional leading minus sign; anything else
  coerces to missing);
* Python functions that can raise are embedded with `Except`; the error
  payload of the aggregation functions is the list of missing column
  names that the raised `KeyError` message carries.
-/

namespace SpainWildfires

/-- A scalar value stored in a dataframe cell or in a GeoJSON property bag. -/
inductive Value where
  | na
  | null
  | bool (b : Bool)
  | int (n : Int)
  | str (s : String)
  deriving DecidableEq, Repr

/-- One dataframe row (and also one GeoJSON property bag): an association
list from column name to cell value. -/
abbrev Row := List (String × Value)

/-- First-match lookup in a row / property bag. -/
def lookupProp (ps : Row) (k : String) : Option Value :=
  match ps with
  | [] => none
  | (k', v) :: rest => if k' = k then some v else lookupProp rest k

/-- Python dict item assignment `ps[k] = v`: replace the value in place if
the key exists, otherwise append the new entry at the end. -/
def setProp (ps : Row) (k : String) (v : Value) : Row :=
  match ps with
  | [] => [(k, v)]
  | (k', v') :: rest => if k' = k then (k, v) :: rest else (k', v') :: setProp rest k v

/-- An in-memory dataframe: the column schema plus the rows. -/
structure Table where
  cols : List String
  rows : List Row
  deriving DecidableEq, Repr

/-- Reading a cell of a row; a column not stored in the row reads as NaN
(pandas materialises every column in every row, missing data as NaN). -/
def getCell (r : Row) (c : String) : Value :=
  (lookupProp r c).getD .na

/-- The full column of values `df[c]`, one per row. -/
def getColVals (t : Table) (c : String) : List Value :=
  t.rows.map (fun r => getCell r c)

/-- Pandas column assignment `df[c] = vals`: replaces the column if it
exists, appends it to the schema otherwise. -/
def setCol (t : Table) (c : String) (vals : List Value) : Table :=
  { cols := if c ∈ t.cols then t.cols else t.cols ++ [c],
    rows := List.zipWith (fun r v => setProp r c v) t.rows vals }

/-- Decimal digit run parser used by `parseIntString` (accumulator form). -/
def digitsVal (acc : Nat) : List Char → Option Nat
  | [] => some acc
  | ch :: cs => if ch.isDigit then digitsVal (acc * 10 + (ch.toNat - 48)) cs else none

/-- Numeric parsing of a string: an optional minus sign followed by a
nonempty digit run.  Models the integer fragment of `pd.to_numeric`. -/
def parseIntString (s : String) : Option Int :=
  match s.data with
  | [] => none
  | '-' :: cs => if cs.isEmpty then none else (digitsVal 0 cs).map (fun n => -(n : Int))
  | cs => (digitsVal 0 cs).map (fun n => (n : Int))

/-- `pd.to_numeric(v, errors="coerce")`: numbers pass through, booleans
become 0/1, unparsable strings and missing values coerce to missing. -/
def parseNum : Value → Option Int
  | .int n => some n
  | .str s => parseIntString s
  | .bool b => some (if b then 1 else 0)
  | .na => none
  | .null => none

/-- Filling of missing data, `Series.fillna`: both NaN and None count as
missing (`pd.isna`) and are replaced by the fill value. -/
def fillnaVal (v : Value) (fill : Value) : Value :=
  match v with
  | .na => fill
  | .null => fill
  | v => v

/-! ## cleaning.py -/

/-- Default set of columns of interest (`DEFAULT_COLUMNS`). -/
def DEFAULT_COLUMNS : List String :=
  ["anio", "idpeligro", "idprovincia", "provincia",
   "numeromediospersonal", "numeromediospesados", "numeromediosaereos",
   "perdidassuperficiales", "idcausa"]

/-- `select_columns(df, columns)`: keep only the requested columns that are
actually present (`df[present].copy()`), defaulting to `DEFAULT_COLUMNS`. -/
def select_columns (df : Table) (columns : Option (List String) := none) : Table :=
  let cols := columns.getD DEFAULT_COLUMNS
  let present := cols.filter (fun c => df.cols.contains c)
  { cols := present,
    rows := df.rows.map (fun r => present.map (fun c => (c, getCell r c))) }

/-- The range test `Series.between(lower, upper, inclusive="both")` on one
cell: an integer is compared inclusively, NaN compares false.  Per the
spec, a non-numeric value counts as "not in range". -/
def betweenVal (v : Value) (lower upper : Int) : Bool :=
  match v with
  | .int n => decide (lower ≤ n) && decide (n ≤ upper)
  | _ => false

/-- `flag_intentional(df, causa_col, out_col, lower, upper)`: boolean flag
column, `between(lower, upper)` of the cause code when the cause column
exists, the scalar `False` broadcast over every row otherwise. -/
def flag_intentional (df : Table) (causa_col : String := "idcausa")
    (out_col : String := "intencionado") (lower : Int := 400) (upper : Int := 499) : Table :=
  if causa_col ∈ df.cols then
    setCol df out_col ((getColVals df causa_col).map (fun v => Value.bool (betweenVal v lower upper)))
  else
    setCol df out_col (df.rows.map (fun _ => Value.bool false))

/-- One guarded numeric coercion block of `coerce_types`:
`out[c] = pd.to_numeric(out[c], errors="coerce").fillna(fill)` (with the
cast to int for the id columns), executed only when the column exists. -/
def coerceNumCol (t : Table) (c : String) (fill : Int) : Table :=
  if c ∈ t.cols then
    setCol t c ((getColVals t c).map (fun v => Value.int ((parseNum v).getD fill)))
  else t

/-- The guarded burned-area-source block of `coerce_types`:
`out["perdidassuperficiales"] = pd.to_numeric(..., errors="coerce")`,
keeping missing values missing. -/
def coercePerdidas (t : Table) : Table :=
  if "perdidassuperficiales" ∈ t.cols then
    setCol t "perdidassuperficiales"
      ((getColVals t "perdidassuperficiales").map (fun v =>
        match parseNum v with
        | some n => Value.int n
        | none => Value.na))
  else t

/-- `coerce_types(df)`: ids parse-or-(-1) and cast to int, burned-area
source parses keeping missing as missing, the three resource columns
parse-or-0.  The source's `for` loop over the resource columns is
unrolled into its three iterations. -/
def coerce_types (df : Table) : Table :=
  coerceNumCol
    (coerceNumCol
      (coerceNumCol
        (coercePerdidas
          (coerceNumCol (coerceNumCol df "idpeligro" (-1)) "idprovincia" (-1)))
        "numeromediospersonal" 0)
      "numeromediospesados" 0)
    "numeromediosaereos" 0

/-- `add_hectareas_alias(df, source, target)`: alias column equal to the
source column with missing filled by 0, or the scalar 0 broadcast when the
source column is absent. -/
def add_hectareas_alias (df : Table) (source : String := "perdidassuperficiales")
    (target : String := "hectareas_quemadas") : Table :=
  if source ∈ df.cols then
    setCol df target ((getColVals df source).map (fun v => fillnaVal v (Value.int 0)))
  else
    setCol df target (df.rows.map (fun _ => Value.int 0))

/-- `prepare_wildfires(df_raw, columns)`: select, flag, coerce, alias, in
that fixed order. -/
def prepare_wildfires (df_raw : Table) (columns : Option (List String) := none) : Table :=
  add_hectareas_alias (coerce_types (flag_intentional (select_columns df_raw columns)))

/-! ## geo.py -/

/-- A GeoJSON feature: a property bag plus an opaque geometry payload. -/
structure Feature where
  properties : Row
  geometry : Value := .null
  deriving DecidableEq, Repr

/-- A GeoJSON feature collection. -/
structure GeoJson where
  features : List Feature
  deriving DecidableEq, Repr

/-- Python's `int(x)` as used on the province-code property: integers pass
through, numeric strings parse, booleans become 0/1; anything else (for
example `None` or a non-numeric string) raises, modelled as `none`. -/
def intOfValue : Value → Option Int
  | .int n => some n
  | .str s => parseIntString s
  | .bool b => some (if b then 1 else 0)
  | _ => none

/-- `_to_jsonable(value)`: missing data (NaN or None) becomes an explicit
null; NumPy numbers become plain numbers; everything else passes through. -/
def to_jsonable : Value → Value
  | .na => .null
  | .null => .null
  | .int n => .int n
  | .bool b => .bool b
  | .str s => .str s

/-- Python dict assignment for the `{code -> name}` province dictionary:
overwrite in place if the key exists, append otherwise (insertion order). -/
def dictInsert (m : List (Int × Value)) (k : Int) (v : Value) : List (Int × Value) :=
  match m with
  | [] => [(k, v)]
  | (k', v') :: rest => if k' = k then (k, v) :: rest else (k', v') :: dictInsert rest k v

/-- Python dict lookup for the province dictionary. -/
def dictGet (m : List (Int × Value)) (k : Int) : Option Value :=
  match m with
  | [] => none
  | (k', v) :: rest => if k' = k then some v else dictGet rest k

/-- Worker of `build_provinces_map`: fold over the features, inserting
`int(code) -> name` for every feature whose property bag has both keys;
`int()` of an unparsable code raises. -/
def buildProvAux (code_key name_key : String) (acc : List (Int × Value)) :
    List Feature → Except String (List (Int × Value))
  | [] => .ok acc
  | f :: fs =>
    match lookupProp f.properties code_key, lookupProp f.properties name_key with
    | some cv, some nv =>
      (match intOfValue cv with
       | some c => buildProvAux code_key name_key (dictInsert acc c nv) fs
       | none => .error "invalid literal for int()")
    | _, _ => buildProvAux code_key name_key acc fs

/-- `build_provinces_map(geojson, code_key, name_key)`: the province
code-to-name dictionary, built feature by feature, skipping features
missing either key. -/
def build_provinces_map (geojson : GeoJson) (code_key : String := "cod_prov")
    (name_key : String := "name") : Except String (List (Int × Value)) :=
  buildProvAux code_key name_key [] geojson.features

/-- `map_province_names(df, provinces_map, id_col, name_col)`: no-op when
`id_col` is absent; otherwise the ids are re-parsed (`-1` on failure), the
dictionary is applied, and no-match rows fall back to the pre-existing
`name_col` values via `fillna`.  When `name_col` is absent,
`out.get(name_col)` is `None` and `Series.fillna(None)` raises
`ValueError: Must specify a fill 'value' or 'method'`. -/
def map_province_names (df : Table) (provinces_map : List (Int × Value))
    (id_col : String := "idprovincia") (name_col : String := "provincia") :
    Except String Table :=
  if id_col ∈ df.cols then
    let ids := (getColVals df id_col).map (fun v => (parseNum v).getD (-1))
    let out := setCol df id_col (ids.map Value.int)
    if name_col ∈ out.cols then
      let mapped := ids.map (fun k => (dictGet provinces_map k).getD Value.na)
      .ok (setCol out name_col
        (List.zipWith (fun mv old => fillnaVal mv old) mapped (getColVals out name_col)))
    else .error "Must specify a fill value or method"
  else .ok df

/-- The columns copied by the geo enrichment: all non-key columns, or the
requested ones restricted to those present and distinct from the key. -/
def colsToCopy (df : Table) (df_key : String) (columns : Option (List String)) : List String :=
  match columns with
  | none => df.cols.filter (fun c => c != df_key)
  | some cs => cs.filter (fun c => df.cols.contains c && c != df_key)

/-- Error-aware mapping over a list, aborting at the first error, as a
Python `for` loop over features does when an iteration raises. -/
def mapExcept {α β ε : Type} (f : α → Except ε β) : List α → Except ε (List β)
  | [] => .ok []
  | x :: xs =>
    match f x with
    | .error e => .error e
    | .ok y =>
      match mapExcept f xs with
      | .error e => .error e
      | .ok ys => .ok (y :: ys)

/-- One iteration of the enrichment loop.  A feature whose name matches a
unique row gets every selected column copied (JSON-safe); a feature with
no match gets every selected column set to an explicit null; a feature
whose name matches several rows makes `lookup.loc[key]` a frame, so the
first `_to_jsonable(row[col])` call applies `pd.isna` to a Series and
raises (only reachable when there is a column to copy). -/
def enrichOneFeature (df : Table) (df_key geo_name_field : String)
    (cols_to_copy : List String) (f : Feature) : Except String Feature :=
  match lookupProp f.properties geo_name_field with
  | some kv =>
    (match df.rows.filter (fun r => getCell r df_key == kv) with
     | [] => .ok { f with properties :=
         cols_to_copy.foldl (fun ps c => setProp ps c Value.null) f.properties }
     | [r] => .ok { f with properties :=
         cols_to_copy.foldl (fun ps c => setProp ps c (to_jsonable (getCell r c))) f.properties }
     | _ =>
       if cols_to_copy.isEmpty then .ok f
       else .error "The truth value of a Series is ambiguous")
  | none => .ok { f with properties :=
      (cols_to_copy.foldl (fun ps c => setProp ps c Value.null) f.properties) }

/-- `enrich_geojson_with_dataframe(df, geojson, geo_name_field, df_key,
columns, deepcopy_geo)`: the returned enriched collection.  `df.set_index
(df_key)` raises when the key column is absent.  The `deepcopy_geo` flag
only decides whether the caller's object is mutated (see
`enrich_geojson_after`); the returned value is the same either way. -/
def enrich_geojson_with_dataframe (df : Table) (geojson : GeoJson)
    (geo_name_field : String := "name") (df_key : String := "provincia")
    (columns : Option (List String) := none) (deepcopy_geo : Bool := true) :
    Except String GeoJson :=
  if df_key ∈ df.cols then
    match mapExcept
        (enrichOneFeature df df_key geo_name_field (colsToCopy df df_key columns))
        geojson.features with
    | .ok fs => .ok { features := fs }
    | .error e => .error e
  else .error "df_key not in columns"

/-- Features of the caller's collection after the loop when it runs on the
original object (no deepcopy): every feature before the first failing one
is updated, the failing one and the rest are untouched. -/
def enrichFeaturesAfter (df : Table) (df_key geo_name_field : String)
    (cols_to_copy : List String) : List Feature → List Feature
  | [] => []
  | f :: fs =>
    match enrichOneFeature df df_key geo_name_field cols_to_copy f with
    | .ok f' => f' :: enrichFeaturesAfter df df_key geo_name_field cols_to_copy fs
    | .error _ => f :: fs

/-- The post-call state of the caller's geo collection object.  With
`deepcopy_geo = true` the loop runs on a deep copy, so the caller's object
is untouched; with `false` the loop mutates the caller's features in
place (up to the first failure).  When `df_key` is absent, `set_index`
raises before the loop starts, so nothing is mutated either way. -/
def enrich_geojson_after (df : Table) (geojson : GeoJson)
    (geo_name_field : String := "name") (df_key : String := "provincia")
    (columns : Option (List String) := none) (deepcopy_geo : Bool := true) : GeoJson :=
  if deepcopy_geo then geojson
  else if df_key ∈ df.cols then
    { features :=
        enrichFeaturesAfter df df_key geo_name_field (colsToCopy df df_key columns)
          geojson.features }
  else geojson

/-- The geo enrichment viewed with its effect on the argument object: the
returned collection paired with the caller's collection after the call. -/
def enrich_geojson_with_dataframe_eff (df : Table) (geojson : GeoJson)
    (geo_name_field : String := "name") (df_key : String := "provincia")
    (columns : Option (List String) := none) (deepcopy_geo : Bool := true) :
    Except String GeoJson × GeoJson :=
  (enrich_geojson_with_dataframe df geojson geo_name_field df_key columns deepcopy_geo,
   enrich_geojson_after df geojson geo_name_field df_key columns deepcopy_geo)

/-! Effect view of the preparation steps.  Each source function begins
with `out = df.copy()` and only ever assigns columns of `out`, so the
argument object's final value is the value it was passed. -/

/-- `select_columns` with the argument object's final value. -/
def select_columns_eff (df : Table) (columns : Option (List String) := none) : Table × Table :=
  (select_columns df columns, df)

/-- `flag_intentional` with the argument object's final value. -/
def flag_intentional_eff (df : Table) : Table × Table :=
  (flag_intentional df, df)

/-- `coerce_types` with the argument object's final value. -/
def coerce_types_eff (df : Table) : Table × Table :=
  (coerce_types df, df)

/-- `add_hectareas_alias` with the argument object's final value. -/
def add_hectareas_alias_eff (df : Table) : Table × Table :=
  (add_hectareas_alias df, df)

/-- `prepare_wildfires` with the argument object's final value: each stage
copies before assigning, so the raw frame is returned unchanged. -/
def prepare_wildfires_eff (df_raw : Table) (columns : Option (List String) := none) :
    Table × Table :=
  (prepare_wildfires df_raw columns, df_raw)

/-! ## aggregates.py -/

/-- Resource columns expected in the data (`RESOURCE_COLUMNS`). -/
def RESOURCE_COLUMNS : List String :=
  ["numeromediospersonal", "numeromediospesados", "numeromediosaereos"]

/-- Pandas `+` on two cells: numbers add, strings concatenate, and any
operation touching missing data yields missing. -/
def vadd : Value → Value → Value
  | .int a, .int b => .int (a + b)
  | .str a, .str b => .str (a ++ b)
  | _, _ => .na

/-- `add_total_resources(df)`: raises `KeyError` carrying the exact list
of missing resource columns, otherwise adds the per-row sum column
`total_medios`. -/
def add_total_resources (df : Table) : Except (List String) Table :=
  let out := df
  let missing := RESOURCE_COLUMNS.filter (fun c => !out.cols.contains c)
  if missing.isEmpty then
    .ok (setCol out "total_medios"
      (out.rows.map (fun r =>
        vadd (vadd (getCell r "numeromediospersonal") (getCell r "numeromediospesados"))
          (getCell r "numeromediosaereos"))))
  else .error missing

/-- Missing-data test used where pandas drops or fills (`pd.isna`). -/
def isMissing (v : Value) : Bool := v == .na || v == .null

/-- Numeric reading of a cell for summation (booleans sum as 0/1). -/
def toIntCell : Value → Option Int
  | .int n => some n
  | .bool b => some (if b then 1 else 0)
  | _ => none

/-- Pandas groupby `sum`: the sum of the numeric cells, skipping missing
data; an empty or all-missing group sums to 0. -/
def sumValues (vs : List Value) : Value :=
  .int ((vs.filterMap toIntCell).sum)

/-- Rank used to order cells of different kinds (a fixed arbitrary order;
group keys of one column share a kind in practice). -/
def valRank : Value → Nat
  | .na => 0
  | .null => 1
  | .bool _ => 2
  | .int _ => 3
  | .str _ => 4

/-- Total comparison of two cells: numbers numerically, strings
lexicographically, different kinds by rank. -/
def valCmp (v w : Value) : Ordering :=
  match v, w with
  | .bool a, .bool b => compare a b
  | .int a, .int b => compare a b
  | .str a, .str b => compare a b
  | v, w => compare (valRank v) (valRank w)

/-- Boolean less-or-equal induced by `valCmp`. -/
def valLe (v w : Value) : Bool :=
  match valCmp v w with
  | .gt => false
  | _ => true

/-- Stable insertion of an element into a sorted list. -/
def insertSortedBy {α : Type} (le : α → α → Bool) (x : α) : List α → List α
  | [] => [x]
  | y :: ys => if le x y then x :: y :: ys else y :: insertSortedBy le x ys

/-- Stable insertion sort. -/
def sortListBy {α : Type} (le : α → α → Bool) : List α → List α
  | [] => []
  | x :: xs => insertSortedBy le x (sortListBy le xs)

/-- Group keys of a pandas `groupby(key)`: the distinct non-missing key
values in ascending order (`sort=True` and `dropna=True` defaults). -/
def groupKeys (vals : List Value) : List Value :=
  sortListBy valLe ((vals.filter (fun v => !isMissing v)).dedup)

/-- A `groupby(key)[aggCols].sum().reset_index()`: one output row per
distinct key (ascending), the key column first, each aggregate column
summed over the rows of the group. -/
def groupAgg (df : Table) (key : String) (aggCols : List String) : Table :=
  { cols := key :: aggCols,
    rows := (groupKeys (getColVals df key)).map (fun k =>
      let sub := df.rows.filter (fun r => getCell r key == k)
      (key, k) :: aggCols.map (fun c => (c, sumValues (sub.map (fun r => getCell r c))))) }

/-- `group_by_province_for_map(df, province_col)`: computes `total_medios`
via `add_total_resources` when absent (propagating its missing-columns
error), re-checks the resource columns, then aggregates per province. -/
def group_by_province_for_map (df : Table) (province_col : String := "provincia") :
    Except (List String) Table :=
  let step := if "total_medios" ∈ df.cols then Except.ok df else add_total_resources df
  match step with
  | .error e => .error e
  | .ok out =>
    let missing := RESOURCE_COLUMNS.filter (fun c => !out.cols.contains c)
    if missing.isEmpty then
      .ok (groupAgg out province_col
        ["total_medios", "numeromediospersonal", "numeromediospesados", "numeromediosaereos"])
    else .error missing

/-- `aggregate_resources_by_year(df, year_col, resource_cols)`: raises
with the exact list of missing resource columns, otherwise sums each
resource column per year. -/
def aggregate_resources_by_year (df : Table) (year_col : String := "anio")
    (resource_cols : List String := RESOURCE_COLUMNS) : Except (List String) Table :=
  let missing := resource_cols.filter (fun c => !df.cols.contains c)
  if missing.isEmpty then .ok (groupAgg df year_col resource_cols)
  else .error missing

/-- Column rename (`DataFrame.rename(columns={a: b})`). -/
def renameCol (t : Table) (a b : String) : Table :=
  { cols := t.cols.map (fun c => if c = a then b else c),
    rows := t.rows.map (fun r => r.map (fun p => if p.1 = a then (b, p.2) else p)) }

/-- `sort_values(by=col, ascending=...)`: rows ordered by the given cell,
missing keys last (pandas `na_position="last"` regardless of direction). -/
def sortRowsByCol (rows : List Row) (col : String) (ascending : Bool) : List Row :=
  let parts := rows.partition (fun r => isMissing (getCell r col))
  (sortListBy (fun r1 r2 =>
    if ascending then valLe (getCell r1 col) (getCell r2 col)
    else valLe (getCell r2 col) (getCell r1 col)) parts.2) ++ parts.1

/-- `top_provinces_by_burned_area(df, n, province_col, area_col,
fallback_area_col, ascending)`: alias-or-fallback column choice, group per
province, sum, normalise the column name, sort (descending by default)
and keep the first `n` rows.  Raises naming both candidate columns when
neither exists. -/
def top_provinces_by_burned_area (df : Table) (n : Nat := 10)
    (province_col : String := "provincia") (area_col : String := "hectareas_quemadas")
    (fallback_area_col : String := "perdidassuperficiales") (ascending : Bool := false) :
    Except (List String) Table :=
  let col := if area_col ∈ df.cols then area_col else fallback_area_col
  if col ∈ df.cols then
    let agg := renameCol (groupAgg df province_col [col]) col "hectareas_quemadas"
    .ok { cols := agg.cols, rows := (sortRowsByCol agg.rows "hectareas_quemadas" ascending).take n }
  else .error [area_col, fallback_area_col]

/-! ## app/spain_wildfires_dashboard.py -/

/-- Boolean-mask row selection `df[mask]`. -/
def filterRows (df : Table) (p : Row → Bool) : Table :=
  { cols := df.cols, rows := df.rows.filter p }

/-- The year mask `(df["anio"] >= y0) & (df["anio"] <= y1)` on one cell;
missing or non-numeric years compare false. -/
def yearInRange (v : Value) (y0 y1 : Int) : Bool :=
  match v with
  | .int n => decide (y0 ≤ n) && decide (n ≤ y1)
  | _ => false

/-- `filter_by_year_and_intent(df, year_range, show_intentional,
show_non_intentional)`: the year mask combined with the intent mask along
the source's three branches. -/
def filter_by_year_and_intent (df : Table) (year_range : Int × Int)
    (show_intentional show_non_intentional : Bool) : Table :=
  let y0 := year_range.1
  let y1 := year_range.2
  let mask_year := fun r => yearInRange (getCell r "anio") y0 y1
  if show_intentional && show_non_intentional then
    filterRows df mask_year
  else if show_intentional then
    filterRows df (fun r => mask_year r && (getCell r "intencionado" == Value.bool true))
  else
    filterRows df (fun r => mask_year r && (getCell r "intencionado" == Value.bool false))

/-! ## Concrete instances used by the claim theorems and witnesses -/

/-- Concrete table used to instantiate the C1 theorem. -/
def c1df : Table := { cols := ["idcausa"], rows := [[("idcausa", .int 450)]] }

/-- Concrete table used to instantiate the C2 theorem: only the personnel
resource column is present. -/
def c2df : Table := { cols := ["anio", "numeromediospersonal"], rows := [] }

/-- Concrete table used to instantiate the C8 theorem. -/
def c8df : Table :=
  { cols := ["idpeligro", "idprovincia", "perdidassuperficiales",
             "numeromediospersonal", "numeromediospesados", "numeromediosaereos"],
    rows := [
      [("idpeligro", .str "abc"), ("idprovincia", .int 3), ("perdidassuperficiales", .na),
       ("numeromediospersonal", .na), ("numeromediospesados", .str "x"),
       ("numeromediosaereos", .int 2)],
      [("idpeligro", .str "7"), ("idprovincia", .str "zz"), ("perdidassuperficiales", .str "5"),
       ("numeromediospersonal", .str "3"), ("numeromediospesados", .int 1),
       ("numeromediosaereos", .na)]] }

/-- The row-level intent predicate encoded by the source's three-way
branch: both switches keep every row, a single switch keeps the matching
flag value, and the all-off case falls into the non-intentional branch. -/
def intentPred (show_intentional show_non_intentional : Bool) (r : Row) : Bool :=
  if show_intentional && show_non_intentional then true
  else if show_intentional then getCell r "intencionado" == Value.bool true
  else getCell r "intencionado" == Value.bool false

/-- Concrete table whose provinces have summed burned areas
A: 100 (60 + 40), B: 50, C: 75, D: 10. -/
def c7df : Table :=
  { cols := ["provincia", "hectareas_quemadas"],
    rows := [
      [("provincia", .str "A"), ("hectareas_quemadas", .int 60)],
      [("provincia", .str "B"), ("hectareas_quemadas", .int 50)],
      [("provincia", .str "A"), ("hectareas_quemadas", .int 40)],
      [("provincia", .str "C"), ("hectareas_quemadas", .int 75)],
      [("provincia", .str "D"), ("hectareas_quemadas", .int 10)]] }


/-- Concrete province dictionary used for C4. -/
def c4map : List (Int × Value) := [(1, .str "Alava")]

/-- Concrete table with the id column but no name column (C4
counterexample input). -/
def c4df : Table := { cols := ["idprovincia"], rows := [[("idprovincia", .int 1)]] }

/-- Concrete table without the id column (C4 witness input: the no-op
branch). -/
def c4df0 : Table := { cols := ["provincia"], rows := [[("provincia", .str "x")]] }

/-- The dictionary entry a feature contributes to `build_provinces_map`:
its parsed code paired with its name value, when both keys are present
and the code parses (the only shape that reaches `dictInsert`). -/
def featEntry (code_key name_key : String) (f : Feature) : Option (Int × Value) :=
  match lookupProp f.properties code_key, lookupProp f.properties name_key with
  | some cv, some nv =>
    (match intOfValue cv with
     | some c => some (c, nv)
     | none => none)
  | _, _ => none

/-- Decidable form of "every feature contributing the code `key` carries
the name `nv`" (used to state that a row's code picks a unique name). -/
def entryAgrees (key : Int) (nv : Value) (g : Feature) : Bool :=
  match featEntry "cod_prov" "name" g with
  | some (c, n) => !(c == key) || (n == nv)
  | none => true

/-- Concrete geo collection for the C3 round-trip witness. -/
def c3gj : GeoJson :=
  { features := [
      { properties := [("cod_prov", .int 1), ("name", .str "Alava")] },
      { properties := [("cod_prov", .int 2), ("name", .str "Albacete")] }] }

/-- Concrete table for the C3 round-trip witness. -/
def c3df : Table :=
  { cols := ["idprovincia", "provincia"],
    rows := [
      [("idprovincia", .int 1), ("provincia", .na)],
      [("idprovincia", .str "2"), ("provincia", .str "old")]] }

/-- The province dictionary that `build_provinces_map` derives from `c3gj`. -/
def c3m : List (Int × Value) := [(1, .str "Alava"), (2, .str "Albacete")]

/-- The resolved table that `map_province_names` derives from `c3df` and `c3m`. -/
def c3t : Table :=
  { cols := ["idprovincia", "provincia"],
    rows := [
      [("idprovincia", .int 1), ("provincia", .str "Alava")],
      [("idprovincia", .int 2), ("provincia", .str "Albacete")]] }

/-- Concrete table for the C6 enrichment witness (unique keys). -/
def c6df : Table :=
  { cols := ["provincia", "total_medios"],
    rows := [[("provincia", .str "Alava"), ("total_medios", .int 5)]] }

/-- Concrete geo collection for the C6 enrichment witness: one matching
feature, one non-matching feature, one feature without the name key. -/
def c6gj : GeoJson :=
  { features := [
      { properties := [("name", .str "Alava")] },
      { properties := [("name", .str "Nowhere")] },
      { properties := [("cod_prov", .int 9)] }] }

/-- Concrete table with a duplicated key for the C10 witness. -/
def c10df : Table :=
  { cols := ["provincia", "total_medios"],
    rows := [
      [("provincia", .str "Alava"), ("total_medios", .int 5)],
      [("provincia", .str "Alava"), ("total_medios", .int 7)]] }

/-- Concrete geo collection whose single feature matches the duplicated
key of `c10df`. -/
def c10gj : GeoJson :=
  { features := [{ properties := [("name", .str "Alava")] }] }

/-- The feature of `c10gj` that triggers the ambiguous lookup. -/
def c10feat : Feature := { properties := [("name", .str "Alava")] }

/-! ## Basic lemmas about rows, columns and column assignment -/

theorem lookupProp_setProp_self (ps : Row) (k : String) (v : Value) :
    lookupProp (setProp ps k v) k = some v := by
  induction ps with
  | nil => simp [setProp, lookupProp]
  | cons p rest ih =>
    obtain ⟨k', v'⟩ := p
    by_cases h : k' = k <;> simp [setProp, lookupProp, h, ih]

theorem lookupProp_setProp_ne (ps : Row) (k q : String) (v : Value) (h : q ≠ k) :
    lookupProp (setProp ps k v) q = lookupProp ps q := by
  induction ps with
  | nil => simp [setProp, lookupProp, Ne.symm h]
  | cons p rest ih =>
    obtain ⟨k', v'⟩ := p
    by_cases hk : k' = k
    · subst hk
      simp [setProp, lookupProp, Ne.symm h]
    · simp [setProp, lookupProp, hk, ih]

theorem getCell_setProp_self (r : Row) (k : String) (v : Value) :
    getCell (setProp r k v) k = v := by
  simp [getCell, lookupProp_setProp_self]

theorem getCell_setProp_ne (r : Row) (k q : String) (v : Value) (h : q ≠ k) :
    getCell (setProp r k v) q = getCell r q := by
  simp [getCell, lookupProp_setProp_ne r k q v h]

theorem length_getColVals (t : Table) (c : String) :
    (getColVals t c).length = t.rows.length := by
  simp [getColVals]

theorem map_getCell_zipWith_setProp_self (rows : List Row) (vals : List Value) (c : String)
    (hlen : vals.length = rows.length) :
    (List.zipWith (fun r v => setProp r c v) rows vals).map (fun r => getCell r c) = vals := by
  induction rows generalizing vals with
  | nil => cases vals <;> simp_all
  | cons r rs ih =>
    cases vals with
    | nil => simp at hlen
    | cons v vs =>
      simp only [List.zipWith_cons_cons, List.map_cons, getCell_setProp_self]
      exact congrArg (v :: ·) (ih vs (by simpa using hlen))

theorem map_getCell_zipWith_setProp_ne (rows : List Row) (vals : List Value) (c q : String)
    (hlen : vals.length = rows.length) (h : q ≠ c) :
    (List.zipWith (fun r v => setProp r c v) rows vals).map (fun r => getCell r q) =
      rows.map (fun r => getCell r q) := by
  induction rows generalizing vals with
  | nil => cases vals <;> simp_all
  | cons r rs ih =>
    cases vals with
    | nil => simp at hlen
    | cons v vs =>
      simp only [List.zipWith_cons_cons, List.map_cons, getCell_setProp_ne r c q v h]
      exact congrArg _ (ih vs (by simpa using hlen))

theorem getColVals_setCol_self (t : Table) (c : String) (vals : List Value)
    (hlen : vals.length = t.rows.length) :
    getColVals (setCol t c vals) c = vals := by
  simp [getColVals, setCol, map_getCell_zipWith_setProp_self t.rows vals c hlen]

theorem getColVals_setCol_ne (t : Table) (c q : String) (vals : List Value)
    (hlen : vals.length = t.rows.length) (h : q ≠ c) :
    getColVals (setCol t c vals) q = getColVals t q := by
  simp [getColVals, setCol, map_getCell_zipWith_setProp_ne t.rows vals c q hlen h]

theorem mem_cols_setCol_self (t : Table) (c : String) (vals : List Value) :
    c ∈ (setCol t c vals).cols := by
  by_cases h : c ∈ t.cols <;> simp [setCol, h]

theorem mem_cols_setCol_iff (t : Table) (c q : String) (vals : List Value) :
    q ∈ (setCol t c vals).cols ↔ q ∈ t.cols ∨ q = c := by
  by_cases h : c ∈ t.cols
  · simp only [setCol, if_pos h]
    constructor
    · exact fun hq => Or.inl hq
    · rintro (hq | rfl) <;> [exact hq; exact h]
  · simp [setCol, if_neg h]

theorem length_rows_setCol (t : Table) (c : String) (vals : List Value)
    (hlen : vals.length = t.rows.length) :
    (setCol t c vals).rows.length = t.rows.length := by
  simp [setCol, hlen]

/-! ## C1: the intentional flag -/

theorem betweenVal_eq_true (v : Value) (lo hi : Int) :
    betweenVal v lo hi = true ↔ ∃ n : Int, v = .int n ∧ lo ≤ n ∧ n ≤ hi := by
  cases v <;> simp [betweenVal]

/-- C1: `flag_intentional` with its defaults adds the boolean column
`intencionado`; at every row the flag is true iff the `idcausa` column
exists and the row's cause code is an integer in the inclusive range
[400, 499]; and when the `idcausa` column is absent the flag is false at
every row (never a third state). -/
theorem flag_intentional_correct (df : Table) (i : Nat) (hi : i < df.rows.length) :
    "intencionado" ∈ (flag_intentional df).cols ∧
    ((getColVals (flag_intentional df) "intencionado")[i]? = some (Value.bool true) ↔
      ("idcausa" ∈ df.cols ∧
        ∃ n : Int, (getColVals df "idcausa")[i]? = some (Value.int n) ∧ 400 ≤ n ∧ n ≤ 499)) ∧
    ("idcausa" ∉ df.cols →
      (getColVals (flag_intentional df) "intencionado")[i]? = some (Value.bool false)) := by
  by_cases h : "idcausa" ∈ df.cols
  · have hlen : ((getColVals df "idcausa").map
        (fun v => Value.bool (betweenVal v 400 499))).length = df.rows.length := by
      simp [length_getColVals]
    have hcol : getColVals (flag_intentional df) "intencionado" =
        (getColVals df "idcausa").map (fun v => Value.bool (betweenVal v 400 499)) := by
      simp only [flag_intentional, if_pos h]
      exact getColVals_setCol_self _ _ _ hlen
    have hmem : "intencionado" ∈ (flag_intentional df).cols := by
      simp only [flag_intentional, if_pos h]
      exact mem_cols_setCol_self _ _ _
    refine ⟨hmem, ?_, fun hc => absurd h hc⟩
    have hidx : i < (getColVals df "idcausa").length := by
      simpa [length_getColVals] using hi
    obtain ⟨v, hv⟩ : ∃ v, (getColVals df "idcausa")[i]? = some v :=
      ⟨_, List.getElem?_eq_getElem hidx⟩
    rw [hcol, List.getElem?_map, hv]
    simp only [Option.map_some', Option.some.injEq, Value.bool.injEq]
    constructor
    · intro hb
      exact ⟨h, by
        obtain ⟨n, hn, h1, h2⟩ := (betweenVal_eq_true v 400 499).mp hb
        exact ⟨n, by simp [hn], h1, h2⟩⟩
    · rintro ⟨-, n, hn, h1, h2⟩
      have : v = Value.int n := by simpa using hn
      exact (betweenVal_eq_true v 400 499).mpr ⟨n, this, h1, h2⟩
  · have hlen : (df.rows.map (fun _ => Value.bool false)).length = df.rows.length := by simp
    have hcol : getColVals (flag_intentional df) "intencionado" =
        df.rows.map (fun _ => Value.bool false) := by
      simp only [flag_intentional, if_neg h]
      exact getColVals_setCol_self _ _ _ hlen
    have hmem : "intencionado" ∈ (flag_intentional df).cols := by
      simp only [flag_intentional, if_neg h]
      exact mem_cols_setCol_self _ _ _
    refine ⟨hmem, ?_, fun _ => ?_⟩
    · rw [hcol]
      constructor
      · intro hfalse
        rw [List.getElem?_map] at hfalse
        obtain ⟨r, hr⟩ : ∃ r, df.rows[i]? = some r := ⟨_, List.getElem?_eq_getElem hi⟩
        rw [hr] at hfalse
        simp at hfalse
      · rintro ⟨hc, -⟩
        exact absurd hc h
    · rw [hcol, List.getElem?_map]
      obtain ⟨r, hr⟩ : ∃ r, df.rows[i]? = some r := ⟨_, List.getElem?_eq_getElem hi⟩
      rw [hr]
      rfl

/-- Witness for C1 at a one-row table with cause code 450. -/
theorem flag_intentional_correct_witness :
    "intencionado" ∈ (flag_intentional c1df).cols ∧
    ((getColVals (flag_intentional c1df) "intencionado")[0]? = some (Value.bool true) ↔
      ("idcausa" ∈ c1df.cols ∧
        ∃ n : Int, (getColVals c1df "idcausa")[0]? = some (Value.int n) ∧ 400 ≤ n ∧ n ≤ 499)) ∧
    ("idcausa" ∉ c1df.cols →
      (getColVals (flag_intentional c1df) "intencionado")[0]? = some (Value.bool false)) :=
  flag_intentional_correct c1df 0 (by decide)

/-! ## C2: missing resource columns abort the aggregations -/

/-- C2: whenever at least one of the three resource columns is missing,
`add_total_resources` and the dependent aggregations
`group_by_province_for_map` and `aggregate_resources_by_year` all fail
with an error carrying exactly the list of missing resource columns, and
no aggregate table is returned. -/
theorem missing_resource_columns_fail (df : Table)
    (h : RESOURCE_COLUMNS.filter (fun c => !df.cols.contains c) ≠ []) :
    add_total_resources df = .error (RESOURCE_COLUMNS.filter (fun c => !df.cols.contains c)) ∧
    group_by_province_for_map df =
      .error (RESOURCE_COLUMNS.filter (fun c => !df.cols.contains c)) ∧
    aggregate_resources_by_year df =
      .error (RESOURCE_COLUMNS.filter (fun c => !df.cols.contains c)) := by
  have hex : ∃ x ∈ RESOURCE_COLUMNS, x ∉ df.cols := by
    rcases hE : RESOURCE_COLUMNS.filter (fun c => !df.cols.contains c) with _ | ⟨a, l⟩
    · exact absurd hE h
    · have ha : a ∈ RESOURCE_COLUMNS.filter (fun c => !df.cols.contains c) := by
        rw [hE]; exact List.mem_cons_self a l
      refine ⟨a, List.mem_of_mem_filter ha, ?_⟩
      have := List.of_mem_filter ha
      simpa using this
  have hnall : ¬ ∀ a ∈ RESOURCE_COLUMNS, a ∈ df.cols := by
    rintro hall
    obtain ⟨x, hx, hnx⟩ := hex
    exact hnx (hall x hx)
  refine ⟨?_, ?_, ?_⟩
  · simp [add_total_resources, hnall]
  · by_cases hm : "total_medios" ∈ df.cols
    · simp [group_by_province_for_map, hm, hnall]
    · simp [group_by_province_for_map, hm, add_total_resources, hnall]
  · simp [aggregate_resources_by_year, hnall]

/-- Witness for C2: the two absent resource columns are named exactly. -/
theorem missing_resource_columns_fail_witness :
    RESOURCE_COLUMNS.filter (fun c => !c2df.cols.contains c) ≠ [] ∧
    RESOURCE_COLUMNS.filter (fun c => !c2df.cols.contains c) =
      ["numeromediospesados", "numeromediosaereos"] ∧
    (add_total_resources c2df =
        .error (RESOURCE_COLUMNS.filter (fun c => !c2df.cols.contains c)) ∧
     group_by_province_for_map c2df =
        .error (RESOURCE_COLUMNS.filter (fun c => !c2df.cols.contains c)) ∧
     aggregate_resources_by_year c2df =
        .error (RESOURCE_COLUMNS.filter (fun c => !c2df.cols.contains c))) :=
  ⟨by decide, by decide, missing_resource_columns_fail c2df (by decide)⟩

/-! ## C8: coerce_types never raises and degrades per column -/

theorem getColVals_coerceNumCol_ne (t : Table) (c q : String) (fill : Int) (h : q ≠ c) :
    getColVals (coerceNumCol t c fill) q = getColVals t q := by
  unfold coerceNumCol
  split
  · exact getColVals_setCol_ne t c q _ (by simp [length_getColVals]) h
  · rfl

theorem getColVals_coerceNumCol_self (t : Table) (c : String) (fill : Int) (h : c ∈ t.cols) :
    getColVals (coerceNumCol t c fill) c =
      (getColVals t c).map (fun v => Value.int ((parseNum v).getD fill)) := by
  unfold coerceNumCol
  rw [if_pos h]
  exact getColVals_setCol_self t c _ (by simp [length_getColVals])

theorem mem_cols_coerceNumCol_iff (t : Table) (c q : String) (fill : Int) (h : q ≠ c) :
    q ∈ (coerceNumCol t c fill).cols ↔ q ∈ t.cols := by
  unfold coerceNumCol
  split
  · rw [mem_cols_setCol_iff]
    simp [h]
  · exact Iff.rfl

theorem getColVals_coercePerdidas_ne (t : Table) (q : String)
    (h : q ≠ "perdidassuperficiales") :
    getColVals (coercePerdidas t) q = getColVals t q := by
  unfold coercePerdidas
  split
  · exact getColVals_setCol_ne t _ q _ (by simp [length_getColVals]) h
  · rfl

theorem getColVals_coercePerdidas_self (t : Table) (h : "perdidassuperficiales" ∈ t.cols) :
    getColVals (coercePerdidas t) "perdidassuperficiales" =
      (getColVals t "perdidassuperficiales").map (fun v =>
        match parseNum v with
        | some n => Value.int n
        | none => Value.na) := by
  unfold coercePerdidas
  rw [if_pos h]
  exact getColVals_setCol_self t _ _ (by simp [length_getColVals])

theorem mem_cols_coercePerdidas_iff (t : Table) (q : String)
    (h : q ≠ "perdidassuperficiales") :
    q ∈ (coercePerdidas t).cols ↔ q ∈ t.cols := by
  unfold coercePerdidas
  split
  · rw [mem_cols_setCol_iff]
    simp [h]
  · exact Iff.rfl

theorem getColVals_coerce_idpeligro (df : Table) (h : "idpeligro" ∈ df.cols) :
    getColVals (coerce_types df) "idpeligro" =
      (getColVals df "idpeligro").map (fun v => Value.int ((parseNum v).getD (-1))) := by
  unfold coerce_types
  rw [getColVals_coerceNumCol_ne _ _ _ _ (by decide),
    getColVals_coerceNumCol_ne _ _ _ _ (by decide),
    getColVals_coerceNumCol_ne _ _ _ _ (by decide),
    getColVals_coercePerdidas_ne _ _ (by decide),
    getColVals_coerceNumCol_ne _ _ _ _ (by decide),
    getColVals_coerceNumCol_self _ _ _ h]

theorem getColVals_coerce_idprovincia (df : Table) (h : "idprovincia" ∈ df.cols) :
    getColVals (coerce_types df) "idprovincia" =
      (getColVals df "idprovincia").map (fun v => Value.int ((parseNum v).getD (-1))) := by
  unfold coerce_types
  rw [getColVals_coerceNumCol_ne _ _ _ _ (by decide),
    getColVals_coerceNumCol_ne _ _ _ _ (by decide),
    getColVals_coerceNumCol_ne _ _ _ _ (by decide),
    getColVals_coercePerdidas_ne _ _ (by decide),
    getColVals_coerceNumCol_self _ _ _
      ((mem_cols_coerceNumCol_iff _ _ _ _ (by decide)).mpr h),
    getColVals_coerceNumCol_ne _ _ _ _ (by decide)]

theorem getColVals_coerce_perdidas (df : Table) (h : "perdidassuperficiales" ∈ df.cols) :
    getColVals (coerce_types df) "perdidassuperficiales" =
      (getColVals df "perdidassuperficiales").map (fun v =>
        match parseNum v with
        | some n => Value.int n
        | none => Value.na) := by
  unfold coerce_types
  rw [getColVals_coerceNumCol_ne _ _ _ _ (by decide),
    getColVals_coerceNumCol_ne _ _ _ _ (by decide),
    getColVals_coerceNumCol_ne _ _ _ _ (by decide),
    getColVals_coercePerdidas_self _
      ((mem_cols_coerceNumCol_iff _ _ _ _ (by decide)).mpr
        ((mem_cols_coerceNumCol_iff _ _ _ _ (by decide)).mpr h)),
    getColVals_coerceNumCol_ne _ _ _ _ (by decide),
    getColVals_coerceNumCol_ne _ _ _ _ (by decide)]

theorem getColVals_coerce_personal (df : Table) (h : "numeromediospersonal" ∈ df.cols) :
    getColVals (coerce_types df) "numeromediospersonal" =
      (getColVals df "numeromediospersonal").map (fun v => Value.int ((parseNum v).getD 0)) := by
  unfold coerce_types
  rw [getColVals_coerceNumCol_ne _ _ _ _ (by decide),
    getColVals_coerceNumCol_ne _ _ _ _ (by decide),
    getColVals_coerceNumCol_self _ _ _
      ((mem_cols_coercePerdidas_iff _ _ (by decide)).mpr
        ((mem_cols_coerceNumCol_iff _ _ _ _ (by decide)).mpr
          ((mem_cols_coerceNumCol_iff _ _ _ _ (by decide)).mpr h))),
    getColVals_coercePerdidas_ne _ _ (by decide),
    getColVals_coerceNumCol_ne _ _ _ _ (by decide),
    getColVals_coerceNumCol_ne _ _ _ _ (by decide)]

theorem getColVals_coerce_pesados (df : Table) (h : "numeromediospesados" ∈ df.cols) :
    getColVals (coerce_types df) "numeromediospesados" =
      (getColVals df "numeromediospesados").map (fun v => Value.int ((parseNum v).getD 0)) := by
  unfold coerce_types
  rw [getColVals_coerceNumCol_ne _ _ _ _ (by decide),
    getColVals_coerceNumCol_self _ _ _
      ((mem_cols_coerceNumCol_iff _ _ _ _ (by decide)).mpr
        ((mem_cols_coercePerdidas_iff _ _ (by decide)).mpr
          ((mem_cols_coerceNumCol_iff _ _ _ _ (by decide)).mpr
            ((mem_cols_coerceNumCol_iff _ _ _ _ (by decide)).mpr h)))),
    getColVals_coerceNumCol_ne _ _ _ _ (by decide),
    getColVals_coercePerdidas_ne _ _ (by decide),
    getColVals_coerceNumCol_ne _ _ _ _ (by decide),
    getColVals_coerceNumCol_ne _ _ _ _ (by decide)]

theorem getColVals_coerce_aereos (df : Table) (h : "numeromediosaereos" ∈ df.cols) :
    getColVals (coerce_types df) "numeromediosaereos" =
      (getColVals df "numeromediosaereos").map (fun v => Value.int ((parseNum v).getD 0)) := by
  unfold coerce_types
  rw [getColVals_coerceNumCol_self _ _ _
      ((mem_cols_coerceNumCol_iff _ _ _ _ (by decide)).mpr
        ((mem_cols_coerceNumCol_iff _ _ _ _ (by decide)).mpr
          ((mem_cols_coercePerdidas_iff _ _ (by decide)).mpr
            ((mem_cols_coerceNumCol_iff _ _ _ _ (by decide)).mpr
              ((mem_cols_coerceNumCol_iff _ _ _ _ (by decide)).mpr h))))),
    getColVals_coerceNumCol_ne _ _ _ _ (by decide),
    getColVals_coerceNumCol_ne _ _ _ _ (by decide),
    getColVals_coercePerdidas_ne _ _ (by decide),
    getColVals_coerceNumCol_ne _ _ _ _ (by decide),
    getColVals_coerceNumCol_ne _ _ _ _ (by decide)]

/-- C8: `coerce_types` is total (it never raises) and degrades per
column: the two id columns parse with -1 substituted on failure (so
`"abc"` yields -1 and `"7"` yields the integer 7), the three resource
columns parse with 0 substituted for missing or unparsable values, and
the burned-area source column keeps missing values missing. -/
theorem coerce_types_degrades (df : Table) :
    ("idpeligro" ∈ df.cols →
      getColVals (coerce_types df) "idpeligro" =
        (getColVals df "idpeligro").map (fun v => Value.int ((parseNum v).getD (-1)))) ∧
    ("idprovincia" ∈ df.cols →
      getColVals (coerce_types df) "idprovincia" =
        (getColVals df "idprovincia").map (fun v => Value.int ((parseNum v).getD (-1)))) ∧
    parseNum (Value.str "abc") = none ∧
    parseNum (Value.str "7") = some 7 ∧
    (∀ c ∈ RESOURCE_COLUMNS, c ∈ df.cols →
      getColVals (coerce_types df) c =
        (getColVals df c).map (fun v => Value.int ((parseNum v).getD 0))) ∧
    ("perdidassuperficiales" ∈ df.cols →
      getColVals (coerce_types df) "perdidassuperficiales" =
        (getColVals df "perdidassuperficiales").map (fun v =>
          match parseNum v with
          | some n => Value.int n
          | none => Value.na)) := by
  refine ⟨getColVals_coerce_idpeligro df, getColVals_coerce_idprovincia df,
    by decide, by decide, ?_, getColVals_coerce_perdidas df⟩
  intro c hc
  have : c = "numeromediospersonal" ∨ c = "numeromediospesados" ∨ c = "numeromediosaereos" := by
    simpa [RESOURCE_COLUMNS] using hc
  rcases this with rfl | rfl | rfl
  · exact getColVals_coerce_personal df
  · exact getColVals_coerce_pesados df
  · exact getColVals_coerce_aereos df

/-- Witness for C8: the degradations evaluated on a concrete table with
unparsable, missing and well-formed values. -/
theorem coerce_types_degrades_witness :
    getColVals (coerce_types c8df) "idpeligro" = [Value.int (-1), Value.int 7] ∧
    getColVals (coerce_types c8df) "idprovincia" = [Value.int 3, Value.int (-1)] ∧
    getColVals (coerce_types c8df) "numeromediospersonal" = [Value.int 0, Value.int 3] ∧
    getColVals (coerce_types c8df) "perdidassuperficiales" = [Value.na, Value.int 5] := by
  have h := coerce_types_degrades c8df
  refine ⟨?_, ?_, ?_, ?_⟩
  · rw [h.1 (by decide)]; decide
  · rw [h.2.1 (by decide)]; decide
  · rw [h.2.2.2.2.1 "numeromediospersonal" (by decide) (by decide)]; decide
  · rw [h.2.2.2.2.2 (by decide)]; decide

/-! ## C9: year/intent filtering is a single conjunction -/

theorem filter_and_rows {α : Type} (p q : α → Bool) (l : List α) :
    (l.filter p).filter q = l.filter (fun a => p a && q a) := by
  induction l with
  | nil => rfl
  | cons x xs ih =>
    by_cases hp : p x <;> by_cases hq : q x <;> simp [List.filter_cons, hp, hq, ih]

/-- C9: `filter_by_year_and_intent` equals the single filter by the
conjunction of the year-range predicate and the intent predicate, and
filtering by year then intent coincides with filtering by intent then
year — for every table, year range and pair of intent switches. -/
theorem filter_year_intent_conjunction (df : Table) (year_range : Int × Int)
    (si sn : Bool) :
    filter_by_year_and_intent df year_range si sn =
      filterRows df
        (fun r => yearInRange (getCell r "anio") year_range.1 year_range.2 &&
          intentPred si sn r) ∧
    filterRows (filterRows df
        (fun r => yearInRange (getCell r "anio") year_range.1 year_range.2))
        (intentPred si sn) =
      filterRows (filterRows df (intentPred si sn))
        (fun r => yearInRange (getCell r "anio") year_range.1 year_range.2) ∧
    filterRows (filterRows df
        (fun r => yearInRange (getCell r "anio") year_range.1 year_range.2))
        (intentPred si sn) =
      filter_by_year_and_intent df year_range si sn := by
  refine ⟨?_, ?_, ?_⟩
  · cases si <;> cases sn <;> simp [filter_by_year_and_intent, intentPred, filterRows]
  · simp only [filterRows, filter_and_rows]
    rw [show (fun a => yearInRange (getCell a "anio") year_range.1 year_range.2 &&
          intentPred si sn a) =
        (fun a => intentPred si sn a &&
          yearInRange (getCell a "anio") year_range.1 year_range.2) from
      funext fun a => Bool.and_comm _ _]
  · simp only [filterRows, filter_and_rows]
    cases si <;> cases sn <;> simp [filter_by_year_and_intent, intentPred, filterRows]

/-! ## C5: the core transformations do not mutate their inputs -/

/-- C5: the preparation operations and the pipeline `prepare_wildfires`
leave their argument table unchanged (each copies before assigning), and
the geo enrichment with its default deep-copy behaviour leaves the
caller's geo collection deep-equal to its pre-call state. -/
theorem core_transforms_do_not_mutate (df : Table) (columns : Option (List String))
    (gj : GeoJson) (geo_name_field df_key : String) (cols2 : Option (List String)) :
    (select_columns_eff df columns).2 = df ∧
    (flag_intentional_eff df).2 = df ∧
    (coerce_types_eff df).2 = df ∧
    (add_hectareas_alias_eff df).2 = df ∧
    (prepare_wildfires_eff df columns).2 = df ∧
    (enrich_geojson_with_dataframe_eff df gj geo_name_field df_key cols2 true).2 = gj := by
  refine ⟨rfl, rfl, rfl, rfl, rfl, ?_⟩
  simp [enrich_geojson_with_dataframe_eff, enrich_geojson_after]

/-! ## C7: top provinces by burned area -/

/-- C7: `top_provinces_by_burned_area` groups by province, sums, sorts
descending by default and truncates: on summed areas {A: 100, B: 50,
C: 75, D: 10} with n = 3 it returns exactly A(100), C(75), B(50) in that
order. -/
theorem top_provinces_c7 :
    top_provinces_by_burned_area c7df 3 =
      .ok { cols := ["provincia", "hectareas_quemadas"],
            rows := [
              [("provincia", .str "A"), ("hectareas_quemadas", .int 100)],
              [("provincia", .str "C"), ("hectareas_quemadas", .int 75)],
              [("provincia", .str "B"), ("hectareas_quemadas", .int 50)]] } := by
  rfl

/-! ## C4: province-name resolution (corrected) -/

theorem zipWith_getElemQ {α β γ : Type} (f : α → β → γ) :
    ∀ (l1 : List α) (l2 : List β) (i : Nat),
      (List.zipWith f l1 l2)[i]? = (l1[i]?).bind (fun a => (l2[i]?).map (fun b => f a b))
  | [], _, _ => by simp
  | _ :: _, [], i => by cases i <;> simp
  | _ :: _, _ :: _, 0 => by simp
  | _ :: l1, _ :: l2, (i + 1) => by simpa using zipWith_getElemQ f l1 l2 i

theorem map_province_names_ok_eq (df : Table) (m : List (Int × Value))
    (h1 : "idprovincia" ∈ df.cols) (h2 : "provincia" ∈ df.cols) :
    map_province_names df m = .ok (setCol
      (setCol df "idprovincia"
        (((getColVals df "idprovincia").map (fun v => (parseNum v).getD (-1))).map Value.int))
      "provincia"
      (List.zipWith (fun mv old => fillnaVal mv old)
        (((getColVals df "idprovincia").map (fun v => (parseNum v).getD (-1))).map
          (fun k => (dictGet m k).getD Value.na))
        (getColVals
          (setCol df "idprovincia"
            (((getColVals df "idprovincia").map (fun v => (parseNum v).getD (-1))).map Value.int))
          "provincia"))) := by
  have hname : "provincia" ∈ (setCol df "idprovincia"
      (((getColVals df "idprovincia").map (fun v => (parseNum v).getD (-1))).map Value.int)).cols :=
    (mem_cols_setCol_iff _ _ _ _).mpr (Or.inl h2)
  simp only [map_province_names, h1, hname, if_true, if_pos]

theorem getColVals_map_province_names_id (df : Table) (m : List (Int × Value))
    (h1 : "idprovincia" ∈ df.cols) (h2 : "provincia" ∈ df.cols) (t : Table)
    (ht : map_province_names df m = .ok t) :
    getColVals t "idprovincia" =
      (getColVals df "idprovincia").map (fun v => Value.int ((parseNum v).getD (-1))) := by
  have hbig := map_province_names_ok_eq df m h1 h2
  rw [ht] at hbig
  injection hbig with heq
  subst heq
  have hlen1 : (((getColVals df "idprovincia").map
      (fun v => (parseNum v).getD (-1))).map Value.int).length = df.rows.length := by
    simp [length_getColVals]
  have hrows : (setCol df "idprovincia"
      (((getColVals df "idprovincia").map (fun v => (parseNum v).getD (-1))).map
        Value.int)).rows.length = df.rows.length :=
    length_rows_setCol _ _ _ hlen1
  have hlenL : (List.zipWith (fun mv old => fillnaVal mv old)
      (((getColVals df "idprovincia").map (fun v => (parseNum v).getD (-1))).map
        (fun k => (dictGet m k).getD Value.na))
      (getColVals
        (setCol df "idprovincia"
          (((getColVals df "idprovincia").map (fun v => (parseNum v).getD (-1))).map Value.int))
        "provincia")).length =
      (setCol df "idprovincia"
        (((getColVals df "idprovincia").map (fun v => (parseNum v).getD (-1))).map
          Value.int)).rows.length := by
    rw [List.length_zipWith, length_getColVals, hrows]
    simp [length_getColVals]
  rw [getColVals_setCol_ne _ _ _ _ hlenL (by decide),
    getColVals_setCol_self _ _ _ hlen1, List.map_map]
  rfl

theorem getColVals_map_province_names_name (df : Table) (m : List (Int × Value))
    (h1 : "idprovincia" ∈ df.cols) (h2 : "provincia" ∈ df.cols) (t : Table)
    (ht : map_province_names df m = .ok t) :
    getColVals t "provincia" =
      List.zipWith (fun mv old => fillnaVal mv old)
        (((getColVals df "idprovincia").map (fun v => (parseNum v).getD (-1))).map
          (fun k => (dictGet m k).getD Value.na))
        (getColVals df "provincia") := by
  have hbig := map_province_names_ok_eq df m h1 h2
  rw [ht] at hbig
  injection hbig with heq
  subst heq
  have hlen1 : (((getColVals df "idprovincia").map
      (fun v => (parseNum v).getD (-1))).map Value.int).length = df.rows.length := by
    simp [length_getColVals]
  have hrows : (setCol df "idprovincia"
      (((getColVals df "idprovincia").map (fun v => (parseNum v).getD (-1))).map
        Value.int)).rows.length = df.rows.length :=
    length_rows_setCol _ _ _ hlen1
  have hlenL : (List.zipWith (fun mv old => fillnaVal mv old)
      (((getColVals df "idprovincia").map (fun v => (parseNum v).getD (-1))).map
        (fun k => (dictGet m k).getD Value.na))
      (getColVals
        (setCol df "idprovincia"
          (((getColVals df "idprovincia").map (fun v => (parseNum v).getD (-1))).map Value.int))
        "provincia")).length =
      (setCol df "idprovincia"
        (((getColVals df "idprovincia").map (fun v => (parseNum v).getD (-1))).map
          Value.int)).rows.length := by
    rw [List.length_zipWith, length_getColVals, hrows]
    simp [length_getColVals]
  rw [getColVals_setCol_self _ _ _ hlenL,
    getColVals_setCol_ne _ _ _ _ hlen1 (by decide)]

/-- C4 counterexample: on a table that has the id column but lacks the
name column, `map_province_names` raises pandas' `fillna` error (the fill
value is `out.get(name_col) = None`) instead of succeeding with absent
name values as the claim states. -/
theorem map_province_names_no_name_col_raises :
    map_province_names c4df c4map = .error "Must specify a fill value or method" := by
  rfl

/-- C4 (amended): `map_province_names` is a no-op when the id column is
absent; otherwise the ids are parsed as numbers with -1 substituted on
failure, and every row whose parsed code has no dictionary entry keeps
the table's pre-existing name value; but when the name column itself does
not exist the operation raises (pandas `fillna` with a `None` fill value)
rather than succeeding with absent values. -/
theorem map_province_names_spec (df : Table) (m : List (Int × Value)) :
    ("idprovincia" ∉ df.cols → map_province_names df m = .ok df) ∧
    ("idprovincia" ∈ df.cols → "provincia" ∉ df.cols →
      map_province_names df m = .error "Must specify a fill value or method") ∧
    ("idprovincia" ∈ df.cols → "provincia" ∈ df.cols →
      ∃ t, map_province_names df m = .ok t ∧
        getColVals t "idprovincia" =
          (getColVals df "idprovincia").map (fun v => Value.int ((parseNum v).getD (-1))) ∧
        (∀ (i : Nat) (v old : Value), (getColVals df "idprovincia")[i]? = some v →
          (getColVals df "provincia")[i]? = some old →
          dictGet m ((parseNum v).getD (-1)) = none →
          (getColVals t "provincia")[i]? = some old)) := by
  refine ⟨?_, ?_, ?_⟩
  · intro h1
    simp [map_province_names, h1]
  · intro h1 h2
    have hname : ¬ ("provincia" ∈ (setCol df "idprovincia"
        (((getColVals df "idprovincia").map (fun v => (parseNum v).getD (-1))).map
          Value.int)).cols) := by
      rw [mem_cols_setCol_iff]
      rintro (hc | hc)
      · exact h2 hc
      · exact absurd hc (by decide)
    simp only [map_province_names]
    rw [if_pos h1, if_neg hname]
  · intro h1 h2
    obtain ⟨t, ht⟩ : ∃ t, map_province_names df m = .ok t :=
      ⟨_, map_province_names_ok_eq df m h1 h2⟩
    refine ⟨t, ht, getColVals_map_province_names_id df m h1 h2 t ht, ?_⟩
    intro i v old hv hold hnone
    rw [getColVals_map_province_names_name df m h1 h2 t ht, zipWith_getElemQ,
      List.getElem?_map, List.getElem?_map, hv, hold]
    simp [hnone, fillnaVal]

/-- Witness for C4 at the no-op branch: a table without the id column is
returned unchanged. -/
theorem map_province_names_spec_witness :
    map_province_names c4df0 c4map = .ok c4df0 :=
  (map_province_names_spec c4df0 c4map).1 (by decide)

/-! ## C3: province lookup round-trip -/

theorem dictGet_dictInsert_self (m : List (Int × Value)) (k : Int) (v : Value) :
    dictGet (dictInsert m k v) k = some v := by
  induction m with
  | nil => simp [dictInsert, dictGet]
  | cons p rest ih =>
    obtain ⟨k', v'⟩ := p
    by_cases h : k' = k <;> simp [dictInsert, dictGet, h, ih]

theorem dictGet_dictInsert_ne (m : List (Int × Value)) (k q : Int) (v : Value) (h : q ≠ k) :
    dictGet (dictInsert m k v) q = dictGet m q := by
  induction m with
  | nil => simp [dictInsert, dictGet, Ne.symm h]
  | cons p rest ih =>
    obtain ⟨k', v'⟩ := p
    by_cases hk : k' = k
    · subst hk
      simp [dictInsert, dictGet, Ne.symm h]
    · simp [dictInsert, dictGet, hk, ih]

theorem buildProvAux_dictGet_frame (ck nk : String) (c : Int) (fs : List Feature) :
    ∀ (acc m : List (Int × Value)),
      buildProvAux ck nk acc fs = .ok m →
      (∀ f ∈ fs, ∀ nv', featEntry ck nk f ≠ some (c, nv')) →
      dictGet m c = dictGet acc c := by
  induction fs with
  | nil =>
    intro acc m h _
    simp only [buildProvAux] at h
    cases h
    rfl
  | cons f fs ih =>
    intro acc m h hnone
    have hrest : ∀ g ∈ fs, ∀ nv', featEntry ck nk g ≠ some (c, nv') :=
      fun g hg => hnone g (List.mem_cons_of_mem f hg)
    rcases hcv : lookupProp f.properties ck with _ | cv
    · simp only [buildProvAux, hcv] at h
      exact ih acc m h hrest
    · rcases hnv : lookupProp f.properties nk with _ | nv₀
      · simp only [buildProvAux, hcv, hnv] at h
        exact ih acc m h hrest
      · rcases hic : intOfValue cv with _ | c'
        · simp only [buildProvAux, hcv, hnv, hic] at h
          cases h
        · simp only [buildProvAux, hcv, hnv, hic] at h
          have hne : c ≠ c' := by
            intro hcc
            exact hnone f (List.mem_cons_self f fs) nv₀
              (by subst hcc; simp [featEntry, hcv, hnv, hic])
          rw [ih _ _ h hrest, dictGet_dictInsert_ne _ _ _ _ hne]

theorem buildProvAux_dictGet (ck nk : String) (c : Int) (nv : Value) (fs : List Feature) :
    ∀ (acc m : List (Int × Value)),
      buildProvAux ck nk acc fs = .ok m →
      (∃ f ∈ fs, featEntry ck nk f = some (c, nv)) →
      (∀ f ∈ fs, ∀ nv', featEntry ck nk f = some (c, nv') → nv' = nv) →
      dictGet m c = some nv := by
  induction fs with
  | nil =>
    intro acc m _ hex _
    obtain ⟨f, hf, _⟩ := hex
    cases hf
  | cons f fs ih =>
    intro acc m h hex huniq
    have hrest : ∀ g ∈ fs, ∀ nv', featEntry ck nk g = some (c, nv') → nv' = nv :=
      fun g hg => huniq g (List.mem_cons_of_mem f hg)
    rcases hcv : lookupProp f.properties ck with _ | cv
    · simp only [buildProvAux, hcv] at h
      obtain ⟨g, hg, hge⟩ := hex
      rcases List.mem_cons.mp hg with rfl | hg'
      · simp [featEntry, hcv] at hge
      · exact ih acc m h ⟨g, hg', hge⟩ hrest
    · rcases hnv : lookupProp f.properties nk with _ | nv₀
      · simp only [buildProvAux, hcv, hnv] at h
        obtain ⟨g, hg, hge⟩ := hex
        rcases List.mem_cons.mp hg with rfl | hg'
        · simp [featEntry, hcv, hnv] at hge
        · exact ih acc m h ⟨g, hg', hge⟩ hrest
      · rcases hic : intOfValue cv with _ | c'
        · simp only [buildProvAux, hcv, hnv, hic] at h
          cases h
        · simp only [buildProvAux, hcv, hnv, hic] at h
          by_cases hcc : c' = c
          · subst hcc
            have hnv0 : nv₀ = nv :=
              huniq f (List.mem_cons_self f fs) nv₀ (by simp [featEntry, hcv, hnv, hic])
            subst hnv0
            by_cases hex' : ∃ g ∈ fs, ∃ nv', featEntry ck nk g = some (c', nv')
            · obtain ⟨g, hg, nv', hg'⟩ := hex'
              have heq : nv' = nv₀ := hrest g hg nv' hg'
              subst heq
              exact ih _ _ h ⟨g, hg, hg'⟩ hrest
            · push_neg at hex'
              rw [buildProvAux_dictGet_frame ck nk c' fs _ _ h hex']
              exact dictGet_dictInsert_self acc c' nv₀
          · obtain ⟨g, hg, hge⟩ := hex
            rcases List.mem_cons.mp hg with rfl | hg'
            · simp [featEntry, hcv, hnv, hic] at hge
              exact absurd hge.1 hcc
            · exact ih _ _ h ⟨g, hg', hge⟩ hrest

/-- C3: round-trip of the province lookup.  Building the dictionary from
a geo collection and then resolving a table against it gives, at every
row whose parsed province code is carried by exactly one contributing
feature of the collection, exactly that feature's name-key value. -/
theorem province_roundtrip (gj : GeoJson) (df : Table) (m : List (Int × Value)) (t : Table)
    (i : Nat) (v nv : Value) (f : Feature)
    (hm : build_provinces_map gj = .ok m)
    (hid : "idprovincia" ∈ df.cols) (hname : "provincia" ∈ df.cols)
    (ht : map_province_names df m = .ok t)
    (hv : (getColVals df "idprovincia")[i]? = some v)
    (hf : f ∈ gj.features)
    (hentry : featEntry "cod_prov" "name" f = some ((parseNum v).getD (-1), nv))
    (huniq : ∀ g ∈ gj.features, entryAgrees ((parseNum v).getD (-1)) nv g = true)
    (hnmiss : isMissing nv = false) :
    (getColVals t "provincia")[i]? = some nv := by
  have huniq' : ∀ g ∈ gj.features, ∀ nv',
      featEntry "cod_prov" "name" g = some ((parseNum v).getD (-1), nv') → nv' = nv := by
    intro g hg nv' hge
    have hb := huniq g hg
    rw [entryAgrees, hge] at hb
    simpa using hb
  have hdict : dictGet m ((parseNum v).getD (-1)) = some nv :=
    buildProvAux_dictGet "cod_prov" "name" _ nv gj.features [] m hm ⟨f, hf, hentry⟩ huniq'
  have hi : i < (getColVals df "idprovincia").length := by
    by_contra hle
    push_neg at hle
    rw [List.getElem?_eq_none hle] at hv
    cases hv
  have hirows : i < df.rows.length := by simpa [length_getColVals] using hi
  have hi' : i < (getColVals df "provincia").length := by
    simpa [length_getColVals] using hirows
  obtain ⟨old, hold⟩ : ∃ old, (getColVals df "provincia")[i]? = some old :=
    ⟨_, List.getElem?_eq_getElem hi'⟩
  rw [getColVals_map_province_names_name df m hid hname t ht, zipWith_getElemQ,
    List.getElem?_map, List.getElem?_map, hv, hold]
  simp only [Option.map_some', Option.some_bind, hdict]
  cases nv <;> simp_all [fillnaVal, isMissing]

/-- Witness for C3 at a concrete geo collection and table: code 1 resolves
to the name of the unique feature carrying code 1. -/
theorem province_roundtrip_witness :
    (getColVals c3t "provincia")[0]? = some (Value.str "Alava") :=
  province_roundtrip c3gj c3df c3m c3t 0 (Value.int 1) (Value.str "Alava")
    { properties := [("cod_prov", .int 1), ("name", .str "Alava")] }
    (by rfl) (by decide) (by decide) (by rfl) (by decide)
    (by decide) (by decide) (by decide) (by decide)

/-! ## C6 and C10: geo enrichment -/

theorem lookupProp_foldl_setProp_notmem (g : String → Value) (cs : List String) :
    ∀ (ps : Row) (c : String), c ∉ cs →
      lookupProp (cs.foldl (fun acc x => setProp acc x (g x)) ps) c = lookupProp ps c := by
  induction cs with
  | nil => intro ps c _; rfl
  | cons x cs ih =>
    intro ps c hc
    have hx : c ≠ x := fun hcc => hc (hcc ▸ List.mem_cons_self x cs)
    have hcs : c ∉ cs := fun hcc => hc (List.mem_cons_of_mem x hcc)
    simp only [List.foldl_cons]
    rw [ih _ c hcs, lookupProp_setProp_ne _ _ _ _ hx]

theorem lookupProp_foldl_setProp_mem (g : String → Value) (cs : List String) :
    ∀ (ps : Row) (c : String), c ∈ cs →
      lookupProp (cs.foldl (fun acc x => setProp acc x (g x)) ps) c = some (g c) := by
  induction cs with
  | nil => intro ps c hc; cases hc
  | cons x cs ih =>
    intro ps c hc
    simp only [List.foldl_cons]
    by_cases hcs : c ∈ cs
    · exact ih _ c hcs
    · have hx : c = x := by
        rcases List.mem_cons.mp hc with h | h
        · exact h
        · exact absurd h hcs
      subst hx
      rw [lookupProp_foldl_setProp_notmem g cs _ c hcs, lookupProp_setProp_self]

theorem enrichOneFeature_cases (df : Table) (dk gnf : String) (cc : List String)
    (f f' : Feature) (hstep : enrichOneFeature df dk gnf cc f = .ok f') :
    (∀ (kv : Value) (r : Row), lookupProp f.properties gnf = some kv →
      df.rows.filter (fun r' => getCell r' dk == kv) = [r] →
      ∀ c ∈ cc, lookupProp f'.properties c = some (to_jsonable (getCell r c))) ∧
    (∀ kv : Value, lookupProp f.properties gnf = some kv →
      df.rows.filter (fun r' => getCell r' dk == kv) = [] →
      ∀ c ∈ cc, lookupProp f'.properties c = some Value.null) ∧
    (lookupProp f.properties gnf = none →
      ∀ c ∈ cc, lookupProp f'.properties c = some Value.null) := by
  refine ⟨?_, ?_, ?_⟩
  · intro kv r hkv hfil c hc
    simp only [enrichOneFeature, hkv, hfil] at hstep
    injection hstep with heq
    subst heq
    exact lookupProp_foldl_setProp_mem _ cc _ c hc
  · intro kv hkv hfil c hc
    simp only [enrichOneFeature, hkv, hfil] at hstep
    injection hstep with heq
    subst heq
    exact lookupProp_foldl_setProp_mem _ cc _ c hc
  · intro hkv c hc
    simp only [enrichOneFeature, hkv] at hstep
    injection hstep with heq
    subst heq
    exact lookupProp_foldl_setProp_mem _ cc _ c hc

theorem enrichOneFeature_isOk (df : Table) (dk gnf : String) (cc : List String) (f : Feature)
    (huniq : ∀ kv : Value, (df.rows.filter (fun r => getCell r dk == kv)).length ≤ 1) :
    ∃ f', enrichOneFeature df dk gnf cc f = .ok f' := by
  rcases hkv : lookupProp f.properties gnf with _ | kv
  · exact ⟨_, by simp only [enrichOneFeature, hkv]; rfl⟩
  · rcases hfil : df.rows.filter (fun r => getCell r dk == kv) with _ | ⟨r, rest⟩
    · exact ⟨_, by simp only [enrichOneFeature, hkv, hfil]; rfl⟩
    · rcases rest with _ | ⟨r2, rest2⟩
      · exact ⟨_, by simp only [enrichOneFeature, hkv, hfil]; rfl⟩
      · exfalso
        have hb := huniq kv
        rw [hfil] at hb
        simp at hb

theorem enrichOneFeature_error_msg (df : Table) (dk gnf : String) (cc : List String)
    (f : Feature) (e : String) (h : enrichOneFeature df dk gnf cc f = .error e) :
    e = "The truth value of a Series is ambiguous" := by
  rcases hkv : lookupProp f.properties gnf with _ | kv
  · simp only [enrichOneFeature, hkv] at h
    cases h
  · rcases hfil : df.rows.filter (fun r => getCell r dk == kv) with _ | ⟨r1, rest⟩
    · simp only [enrichOneFeature, hkv, hfil] at h
      cases h
    · rcases rest with _ | ⟨r2, rest2⟩
      · simp only [enrichOneFeature, hkv, hfil] at h
        cases h
      · simp only [enrichOneFeature, hkv, hfil] at h
        rcases hE : cc.isEmpty
        · rw [hE] at h
          simp only [Bool.false_eq_true, if_false] at h
          injection h with he
          exact he.symm
        · rw [hE] at h
          simp only [if_true] at h
          cases h

theorem mapExcept_ok_forall {α β ε : Type} (f : α → Except ε β) (l : List α) :
    ∀ ys, mapExcept f l = .ok ys → ∀ x ∈ l, ∃ y, f x = .ok y := by
  induction l with
  | nil =>
    intro ys _ x hx
    cases hx
  | cons a l ih =>
    intro ys h x hx
    rcases hfa : f a with e | y
    · simp only [mapExcept, hfa] at h
      cases h
    · simp only [mapExcept, hfa] at h
      rcases hrec : mapExcept f l with e | ys'
      · rw [hrec] at h
        cases h
      · rw [hrec] at h
        rcases List.mem_cons.mp hx with rfl | hx'
        · exact ⟨y, hfa⟩
        · exact ih ys' hrec x hx'

theorem mapExcept_ok_of_forall {α β ε : Type} (f : α → Except ε β) (l : List α)
    (h : ∀ x ∈ l, ∃ y, f x = .ok y) :
    ∃ ys, mapExcept f l = .ok ys ∧ ys.length = l.length ∧
      ∀ (i : Nat) (x : α), l[i]? = some x → ∃ y, ys[i]? = some y ∧ f x = .ok y := by
  induction l with
  | nil => exact ⟨[], rfl, rfl, fun i x hx => by simp at hx⟩
  | cons a l ih =>
    obtain ⟨y, hy⟩ := h a (List.mem_cons_self a l)
    obtain ⟨ys, hys, hlen, hidx⟩ := ih (fun x hx => h x (List.mem_cons_of_mem a hx))
    refine ⟨y :: ys, ?_, by simp [hlen], ?_⟩
    · simp only [mapExcept, hy, hys]
    · intro i x hx
      cases i with
      | zero =>
        simp only [List.getElem?_cons_zero] at hx
        injection hx with hax
        subst hax
        exact ⟨y, by simp, hy⟩
      | succ i =>
        simp only [List.getElem?_cons_succ] at hx ⊢
        exact hidx i x hx

theorem mapExcept_error_msg {α β : Type} (f : α → Except String β) (msg : String)
    (hmsg : ∀ x e, f x = .error e → e = msg) (l : List α) :
    ∀ e, mapExcept f l = .error e → e = msg := by
  induction l with
  | nil =>
    intro e h
    cases h
  | cons a l ih =>
    intro e h
    rcases hfa : f a with e' | y
    · simp only [mapExcept, hfa] at h
      injection h with he
      subst he
      exact hmsg a _ hfa
    · simp only [mapExcept, hfa] at h
      rcases hrec : mapExcept f l with e'' | ys
      · rw [hrec] at h
        injection h with he
        subst he
        exact ih _ hrec
      · rw [hrec] at h
        cases h

theorem filter_len_le_one_of_pairwise (rows : List Row) (dk : String)
    (h : (rows.map (fun r => getCell r dk)).Pairwise (fun a b => a ≠ b)) (kv : Value) :
    (rows.filter (fun r => getCell r dk == kv)).length ≤ 1 := by
  induction rows with
  | nil => simp
  | cons r rs ih =>
    simp only [List.map_cons, List.pairwise_cons] at h
    obtain ⟨hhead, htail⟩ := h
    by_cases hr : getCell r dk == kv
    · have hrs : rs.filter (fun r' => getCell r' dk == kv) = [] := by
        rw [List.filter_eq_nil_iff]
        intro r' hr'
        have hne := hhead (getCell r' dk) (List.mem_map_of_mem _ hr')
        intro hb
        apply hne
        have h1 : getCell r dk = kv := by simpa using hr
        have h2 : getCell r' dk = kv := by simpa using hb
        rw [h1, h2]
      simp [List.filter_cons, hr, hrs]
    · simp only [List.filter_cons, hr, Bool.false_eq_true, if_false]
      exact ih htail

/-- C6: for every feature of the geo collection (given a present,
duplicate-free key column), the enrichment succeeds and: a feature whose
name property matches the unique row with that table key gets every
selected column copied into its property bag as a JSON-safe value
(missing data as an explicit null); a feature whose name matches no table
key, or that has no name property at all, gets every selected property
key set to an explicit null rather than left unset. -/
theorem enrich_feature_spec (df : Table) (gj : GeoJson) (gnf dk : String)
    (cols : Option (List String)) (deep : Bool)
    (hkey : dk ∈ df.cols)
    (hdistinct : (df.rows.map (fun r => getCell r dk)).Pairwise (fun a b => a ≠ b)) :
    ∃ g', enrich_geojson_with_dataframe df gj gnf dk cols deep = .ok g' ∧
      g'.features.length = gj.features.length ∧
      ∀ (i : Nat) (f f' : Feature), gj.features[i]? = some f → g'.features[i]? = some f' →
        ((∀ (kv : Value) (r : Row), lookupProp f.properties gnf = some kv →
          df.rows.filter (fun r' => getCell r' dk == kv) = [r] →
          ∀ c ∈ colsToCopy df dk cols,
            lookupProp f'.properties c = some (to_jsonable (getCell r c))) ∧
        (∀ kv : Value, lookupProp f.properties gnf = some kv →
          df.rows.filter (fun r' => getCell r' dk == kv) = [] →
          ∀ c ∈ colsToCopy df dk cols, lookupProp f'.properties c = some Value.null) ∧
        (lookupProp f.properties gnf = none →
          ∀ c ∈ colsToCopy df dk cols, lookupProp f'.properties c = some Value.null)) := by
  have hle : ∀ kv : Value, (df.rows.filter (fun r => getCell r dk == kv)).length ≤ 1 :=
    filter_len_le_one_of_pairwise df.rows dk hdistinct
  obtain ⟨ys, hys, hlen, hidx⟩ := mapExcept_ok_of_forall
    (enrichOneFeature df dk gnf (colsToCopy df dk cols)) gj.features
    (fun f _ => enrichOneFeature_isOk df dk gnf (colsToCopy df dk cols) f hle)
  refine ⟨⟨ys⟩, ?_, by simpa using hlen, ?_⟩
  · simp only [enrich_geojson_with_dataframe]
    rw [if_pos hkey, hys]
  · intro i f f' hfi hfi'
    obtain ⟨y, hy, hstep⟩ := hidx i f hfi
    have hyy : f' = y := by
      have hfi2 : ys[i]? = some f' := hfi'
      rw [hfi2] at hy
      injection hy
    subst hyy
    exact enrichOneFeature_cases df dk gnf _ f f' hstep

/-- Witness for C6 on a concrete table and geo collection containing a
matched feature, an unmatched feature and a nameless feature. -/
theorem enrich_feature_spec_witness :
    ∃ g', enrich_geojson_with_dataframe c6df c6gj "name" "provincia" none true = .ok g' ∧
      g'.features.length = c6gj.features.length ∧
      ∀ (i : Nat) (f f' : Feature), c6gj.features[i]? = some f → g'.features[i]? = some f' →
        ((∀ (kv : Value) (r : Row), lookupProp f.properties "name" = some kv →
          c6df.rows.filter (fun r' => getCell r' "provincia" == kv) = [r] →
          ∀ c ∈ colsToCopy c6df "provincia" none,
            lookupProp f'.properties c = some (to_jsonable (getCell r c))) ∧
        (∀ kv : Value, lookupProp f.properties "name" = some kv →
          c6df.rows.filter (fun r' => getCell r' "provincia" == kv) = [] →
          ∀ c ∈ colsToCopy c6df "provincia" none,
            lookupProp f'.properties c = some Value.null) ∧
        (lookupProp f.properties "name" = none →
          ∀ c ∈ colsToCopy c6df "provincia" none,
            lookupProp f'.properties c = some Value.null)) :=
  enrich_feature_spec c6df c6gj "name" "provincia" none true (by decide) (by decide)

/-- C10: when the key column is present, a feature's name matches two or
more rows of the table and there is at least one column to copy, the
enrichment fails with the ambiguous-Series error (the row lookup returns
a frame and `_to_jsonable` applies `pd.isna` to a Series), instead of
choosing one of the rows. -/
theorem enrich_duplicate_key_fails (df : Table) (gj : GeoJson) (gnf dk : String)
    (cols : Option (List String)) (deep : Bool) (f : Feature) (kv : Value)
    (hkey : dk ∈ df.cols)
    (hcc : colsToCopy df dk cols ≠ [])
    (hf : f ∈ gj.features)
    (hkv : lookupProp f.properties gnf = some kv)
    (hdup : 2 ≤ (df.rows.filter (fun r => getCell r dk == kv)).length) :
    enrich_geojson_with_dataframe df gj gnf dk cols deep =
      .error "The truth value of a Series is ambiguous" := by
  have hccE : (colsToCopy df dk cols).isEmpty = false := by
    rcases hE : colsToCopy df dk cols with _ | ⟨a, l⟩
    · exact absurd hE hcc
    · rfl
  have hstep : enrichOneFeature df dk gnf (colsToCopy df dk cols) f =
      .error "The truth value of a Series is ambiguous" := by
    rcases hfil : df.rows.filter (fun r => getCell r dk == kv) with _ | ⟨r1, rest⟩
    · rw [hfil] at hdup
      simp at hdup
    · rcases rest with _ | ⟨r2, rest2⟩
      · rw [hfil] at hdup
        simp at hdup
      · simp only [enrichOneFeature, hkv, hfil, hccE, Bool.false_eq_true, if_false]
  simp only [enrich_geojson_with_dataframe]
  rw [if_pos hkey]
  rcases hmap : mapExcept (enrichOneFeature df dk gnf (colsToCopy df dk cols)) gj.features
    with e | ys
  · have hmsg := mapExcept_error_msg (enrichOneFeature df dk gnf (colsToCopy df dk cols))
      "The truth value of a Series is ambiguous"
      (fun x e' hx => enrichOneFeature_error_msg df dk gnf _ x e' hx) gj.features e hmap
    rw [hmsg]
  · exfalso
    obtain ⟨y, hy⟩ := mapExcept_ok_forall _ gj.features ys hmap f hf
    rw [hstep] at hy
    cases hy

/-- Witness for C10: a table with two rows for the same province makes
the enrichment of a matching feature fail. -/
theorem enrich_duplicate_key_fails_witness :
    enrich_geojson_with_dataframe c10df c10gj "name" "provincia" none true =
      .error "The truth value of a Series is ambiguous" :=
  enrich_duplicate_key_fails c10df c10gj "name" "provincia" none true c10feat
    (Value.str "Alava") (by decide) (by decide) (by decide) (by decide) (by decide)

end SpainWildfires
